import Mathlib

/-!
Verification development for the PokéForge client (src/types.ts, src/App.tsx,
src/services/pokemonApiService.ts, src/services/indexedDbService.ts).

The stateful protocols of `App.tsx` are shallowly embedded as pure state
transformers.  Asynchronous store writes and the remote generation call are
fallible; each protocol therefore takes an environment record fixing the
outcome of every fallible step of that run (success, or the failure that the
corresponding promise rejection would carry).  Each protocol returns the new
application state (in-memory mirrors plus the persisted store), the ordered
trace of requests it issued, and whether the protocol's own promise rejected
(an exception escaped every catch block).

Machine numbers of the source are JavaScript numbers used only at integer
values, embedded as `Int` (balances) and `Nat` (timestamps, amounts).
ISO-8601 timestamp strings are embedded by their parsed value: `generatedAt`
as epoch milliseconds (the source compares them via `Date.getTime`), and the
daily-bonus `lastClaimed` string as a `DateTime` of calendar day plus
milliseconds within the day (what `toDateString` and `toISOString` expose).
-/

namespace PokeForge

/-- Rarity tiers, from `PokemonRarity` in types.ts. -/
inductive PokemonRarity where
  | COMMON
  | RARE
  | EPIC
  | LEGENDARY
  | MYTHIC
deriving DecidableEq, Repr

/-- Item status, from `PokemonStatus` in types.ts. -/
inductive PokemonStatus where
  | OWNED
  | RESOLD
deriving DecidableEq, Repr

/-- A generated collectible, from the `Pokemon` interface in types.ts.
`generatedAt` is the epoch-millisecond value of the ISO-8601 string. -/
structure Pokemon where
  id : String
  name : String
  rarity : PokemonRarity
  imageBase64 : String
  generatedAt : Nat
  status : PokemonStatus
  isFavorite : Bool
deriving DecidableEq, Repr

/-- A persisted achievement record, from the `Achievement` interface in
types.ts.  `unlockedAt` is the epoch-millisecond value of the ISO string. -/
structure Achievement where
  id : String
  name : String
  description : String
  unlocked : Bool
  unlockedAt : Option Nat
deriving DecidableEq, Repr

/-- One entry of the static achievement table `ALL_ACHIEVEMENTS` in App.tsx
(`Omit<Achievement, 'unlocked' | 'unlockedAt'>`). -/
structure AchievementDef where
  id : String
  name : String
  description : String
deriving DecidableEq, Repr

/-- An instant, decomposed the way App.tsx consumes it: `day` is the calendar
day (what `toDateString` projects to) and `msOfDay` is the time within that
day.  `toISOString` records both components; a bare calendar date would carry
no time-of-day component. -/
structure DateTime where
  day : Nat
  msOfDay : Nat
deriving DecidableEq, Repr

/-- The persisted daily-bonus record, from `DailyBonusStatus` in types.ts.
The source stores `lastClaimed` as a string; it is embedded by its parsed
instant. -/
structure DailyBonusStatus where
  lastClaimed : DateTime
deriving DecidableEq, Repr

/-- Message kinds of `AppMessage` in types.ts. -/
inductive MessageType where
  | success
  | error
  | warning
deriving DecidableEq, Repr

/-- A transient user-facing message, from `AppMessage` in types.ts. -/
structure AppMessage where
  type : MessageType
  text : String
deriving DecidableEq, Repr

/-- `showMessage` in App.tsx sets the transient message (the auto-expiry
timer is presentation behavior and is not modelled). -/
def showMessage (type : MessageType) (text : String) : Option AppMessage :=
  some { type := type, text := text }

/-- The content of the IndexedDB store (indexedDbService.ts): the `pokemons`
and `achievements` object stores, and the fixed-key rows of the `settings`
store that the protocols touch. -/
structure Store where
  pokemons : List Pokemon
  tokenBalance : Int
  achievements : List Achievement
  dailyBonus : Option DailyBonusStatus
deriving DecidableEq, Repr

/-- The application state: the in-memory React mirrors of App.tsx plus the
persisted store. -/
structure AppState where
  pokemons : List Pokemon
  tokenBalance : Int
  achievements : List Achievement
  message : Option AppMessage
  store : Store
deriving DecidableEq, Repr

/-- One asynchronous request issued by a protocol, in issue order:
`writeBalance` is `updateTokenBalance`, `addItem` is `addPokemon`
(IndexedDB `add`), `putItem` is `updatePokemon` (IndexedDB `put`),
`putAchievement` is `updateAchievement`, `putDailyBonus` is
`updateDailyBonusStatus`, and `remoteCall` is `pokemonApiService.generatePokemon`. -/
inductive Event where
  | writeBalance (amount : Int)
  | addItem (p : Pokemon)
  | putItem (p : Pokemon)
  | putAchievement (a : Achievement)
  | putDailyBonus (d : DailyBonusStatus)
  | remoteCall
deriving DecidableEq, Repr

/-- Result of running one protocol: the state afterwards, the trace of issued
requests, and whether the protocol's promise rejected. -/
structure ProtoResult where
  state : AppState
  trace : List Event
  threw : Bool
deriving DecidableEq, Repr

/-- `const GENERATION_COST = 10` in App.tsx. -/
def GENERATION_COST : Int := 10

/-- `const INITIAL_TOKENS = 100` in App.tsx; also the default row written by
`getTokenBalance` in indexedDbService.ts. -/
def INITIAL_TOKENS : Int := 100

/-- The static achievement-definition table `ALL_ACHIEVEMENTS` in App.tsx. -/
def ALL_ACHIEVEMENTS : List AchievementDef :=
  [ { id := "FIRST_FORGE", name := "Première Forge",
      description := "Générer votre premier Pokémon." },
    { id := "TEN_FORGES", name := "Forgeron Amateur",
      description := "Générer 10 Pokémon." },
    { id := "FIRST_SALE", name := "Premier Profit",
      description := "Revendre un Pokémon sur le marché." },
    { id := "LEGENDARY_FORGE", name := "Main de Midas",
      description := "Générer un Pokémon Légendaire ou Mythique." } ]

/-- The rarity→resale-value table `getResellValue` in App.tsx. -/
def getResellValue (rarity : PokemonRarity) : Int :=
  match rarity with
  | .COMMON => 5
  | .RARE => 10
  | .EPIC => 20
  | .LEGENDARY => 40
  | .MYTHIC => 80

/-- `getBuyPrice` in App.tsx: `getResellValue(rarity) * 2`. -/
def getBuyPrice (rarity : PokemonRarity) : Int :=
  getResellValue rarity * 2

/-- `mapApiRarityToEnum` in pokemonApiService.ts: the legacy tier alphabet,
with the lossy default to Common (the source also logs a console warning). -/
def mapApiRarityToEnum (apiRarity : String) : PokemonRarity :=
  if apiRarity = "F" ∨ apiRarity = "E" then .COMMON
  else if apiRarity = "D" ∨ apiRarity = "C" then .RARE
  else if apiRarity = "B" then .EPIC
  else if apiRarity = "A" ∨ apiRarity = "S" then .LEGENDARY
  else if apiRarity = "S+" then .MYTHIC
  else .COMMON

/-- The response metadata object read by `generatePokemon` in
pokemonApiService.ts; `none` models an absent field and `some ""` an empty
(hence falsy) one. -/
structure RawMetadata where
  id : Option String
  name : Option String
  rarity : Option String
deriving DecidableEq, Repr

/-- The parsed JSON body of a 200 response of the generation endpoint, as
destructured by `generatePokemon` in pokemonApiService.ts.  `generatedAt` is
`none` when the field is absent (a present ISO string is a nonempty string,
hence truthy, so presence is all the source's check observes). -/
structure RawApiData where
  imageBase64 : Option String
  metadata : Option RawMetadata
  generatedAt : Option Nat
deriving DecidableEq, Repr

/-- JavaScript truthiness of an optional string field: present and nonempty. -/
def truthyStr (o : Option String) : Bool :=
  !(o.getD "" == "")

/-- The validation and construction performed by `generatePokemon` in
pokemonApiService.ts on a successful HTTP response: every expected field must
be present (and truthy), else the call fails with the malformed-response
error; otherwise the new item is built with the mapped rarity, status
`OWNED` and `isFavorite` false. -/
def generatePokemonFromResponse (data : RawApiData) : Except String Pokemon :=
  match data.metadata with
  | none => .error "Invalid API response format received: missing expected fields."
  | some md =>
    if truthyStr data.imageBase64 && truthyStr md.id && truthyStr md.name
        && truthyStr md.rarity && data.generatedAt.isSome then
      .ok { id := md.id.getD ""
            name := md.name.getD ""
            rarity := mapApiRarityToEnum (md.rarity.getD "")
            imageBase64 := data.imageBase64.getD ""
            generatedAt := data.generatedAt.getD 0
            status := .OWNED
            isFavorite := false }
    else
      .error "Invalid API response format received: missing expected fields."

/-- The per-definition unlock predicate: the `switch (achievementDef.id)`
inside `checkAndUnlockAchievements` in App.tsx.  Ids outside the switch leave
`shouldUnlock` at its initial `false`. -/
def shouldUnlock (achId : String) (currentPokemons : List Pokemon) : Bool :=
  if achId = "FIRST_FORGE" then decide (currentPokemons.length ≥ 1)
  else if achId = "TEN_FORGES" then decide (currentPokemons.length ≥ 10)
  else if achId = "FIRST_SALE" then
    currentPokemons.any (fun p => decide (p.status = PokemonStatus.RESOLD))
  else if achId = "LEGENDARY_FORGE" then
    currentPokemons.any (fun p =>
      decide (p.rarity = PokemonRarity.LEGENDARY) || decide (p.rarity = PokemonRarity.MYTHIC))
  else false

/-- The achievement record built at unlock time in App.tsx:
`{ ...achievementDef, unlocked: true, unlockedAt: new Date().toISOString() }`. -/
def unlockedNow (d : AchievementDef) (now : Nat) : Achievement :=
  { id := d.id, name := d.name, description := d.description,
    unlocked := true, unlockedAt := some now }

/-- The skip test of the loop in `checkAndUnlockAchievements`:
`existingAchievement && existingAchievement.unlocked`. -/
def alreadyUnlocked (currentAchievements : List Achievement) (achId : String) : Bool :=
  match currentAchievements.find? (fun a => decide (a.id = achId)) with
  | some a => a.unlocked
  | none => false

/-- The achievements newly unlocked by one evaluation run: the definitions
not skipped as already unlocked whose predicate holds, in table order, each
turned into its unlock record (the `unlockedAchievements` array of App.tsx). -/
def newlyUnlocked (currentPokemons : List Pokemon)
    (currentAchievements : List Achievement) (now : Nat) : List Achievement :=
  (ALL_ACHIEVEMENTS.filter (fun d =>
      !alreadyUnlocked currentAchievements d.id && shouldUnlock d.id currentPokemons)).map
    (fun d => unlockedNow d now)

/-- Replace the first entry with the given id (the `updated[index] = unlocked`
branch of the merge in `checkAndUnlockAchievements`). -/
def replaceFirstAch : List Achievement → Achievement → List Achievement
  | [], _ => []
  | a :: rest, u => if a.id = u.id then u :: rest else a :: replaceFirstAch rest u

/-- One step of the in-memory merge of `checkAndUnlockAchievements` (also the
effect of a keyed `put` on the achievements object store): replace the entry
with the same id if one exists, else append. -/
def mergeOne (updated : List Achievement) (unlocked : Achievement) : List Achievement :=
  if updated.any (fun a => decide (a.id = unlocked.id)) then
    replaceFirstAch updated unlocked
  else
    updated ++ [unlocked]

/-- Result of one run of `checkAndUnlockAchievements`: the in-memory set
afterwards, the persisted achievements store afterwards, the trace of
`updateAchievement` requests, and whether a request rejected (the exception
then propagates to the calling protocol before the in-memory merge runs). -/
structure AchOutcome where
  achievements : List Achievement
  storeAchievements : List Achievement
  trace : List Event
  threw : Bool
deriving DecidableEq, Repr

/-- `checkAndUnlockAchievements` in App.tsx.  `achFailAt = some k` makes the
k-th `updateAchievement` request of this run reject (if there are that many):
the writes before it are already committed, the failing write is issued but
not committed, and the loop aborts, so `setAchievements` never runs.
Otherwise every newly unlocked record is persisted and merged in table
order. -/
def checkAndUnlockAchievements (achFailAt : Option Nat) (now : Nat)
    (currentPokemons : List Pokemon) (currentAchievements : List Achievement)
    (storeAchievements : List Achievement) : AchOutcome :=
  let news := newlyUnlocked currentPokemons currentAchievements now
  match achFailAt with
  | some k =>
    if k < news.length then
      { achievements := currentAchievements
        storeAchievements := (news.take k).foldl mergeOne storeAchievements
        trace := (news.take (k + 1)).map Event.putAchievement
        threw := true }
    else
      { achievements := news.foldl mergeOne currentAchievements
        storeAchievements := news.foldl mergeOne storeAchievements
        trace := news.map Event.putAchievement
        threw := false }
  | none =>
      { achievements := news.foldl mergeOne currentAchievements
        storeAchievements := news.foldl mergeOne storeAchievements
        trace := news.map Event.putAchievement
        threw := false }

/-- Descending insertion by `generatedAt` (helper for `sortByNewest`). -/
def insertDesc (p : Pokemon) : List Pokemon → List Pokemon
  | [] => [p]
  | q :: rest => if q.generatedAt ≥ p.generatedAt then q :: insertDesc p rest
                 else p :: q :: rest

/-- The in-memory list ordering of App.tsx:
`.sort((a, b) => new Date(b.generatedAt).getTime() - new Date(a.generatedAt).getTime())`,
i.e. descending creation time. -/
def sortByNewest : List Pokemon → List Pokemon
  | [] => []
  | p :: rest => insertDesc p (sortByNewest rest)

/-- The `pokemons` object store's `add` (used by `addPokemon`): fails with a
duplicate-key constraint error when an entry with that id exists. -/
def addPokemonToStore (store : List Pokemon) (p : Pokemon) : Option (List Pokemon) :=
  if store.any (fun q => decide (q.id = p.id)) then none
  else some (store ++ [p])

/-- The `pokemons` object store's keyed `put` (used by `updatePokemon`):
replace the entry with the same id, or insert it. -/
def putPokemonInStore (store : List Pokemon) (p : Pokemon) : List Pokemon :=
  if store.any (fun q => decide (q.id = p.id)) then
    store.map (fun q => if q.id = p.id then p else q)
  else
    store ++ [p]

/-- Placeholder text of a `StorageError` surfaced through
`(error as Error).message`; the concrete engine text is environment-dependent. -/
def storageErrorText : String := "StorageError"

/-- Outcomes of the fallible steps of one `handleGeneratePokemon` run. -/
structure GenEnv where
  debitWriteOk : Bool
  remoteResult : Except String Pokemon
  itemWriteOk : Bool
  achFailAt : Option Nat
  rollbackWriteOk : Bool
  now : Nat

/-- The catch block of `handleGeneratePokemon`: restore the in-memory balance
to its pre-debit value and issue the compensating `updateTokenBalance`.  If
that write itself rejects, the exception escapes the catch block: the
protocol's promise rejects, no error message is shown, and the persisted
balance is left where it was. -/
def genRollback (env : GenEnv) (originalTokenBalance : Int) (s : AppState)
    (tr : List Event) (errText : String) : ProtoResult :=
  let s1 : AppState := { s with tokenBalance := originalTokenBalance }
  if env.rollbackWriteOk then
    { state := { s1 with
                 store := { s1.store with tokenBalance := originalTokenBalance },
                 message := showMessage .error errText }
      trace := tr ++ [Event.writeBalance originalTokenBalance]
      threw := false }
  else
    { state := s1
      trace := tr ++ [Event.writeBalance originalTokenBalance]
      threw := true }

/-- `handleGeneratePokemon` in App.tsx: guard on the balance, optimistically
debit and persist, call the remote generator, persist the new item, update
the in-memory list, evaluate achievements, and on any failure inside the try
block run the compensating rollback of `genRollback`. -/
def handleGeneratePokemon (env : GenEnv) (s : AppState) : ProtoResult :=
  if s.tokenBalance < GENERATION_COST then
    { state := { s with message := showMessage .warning
                          ("Il faut " ++ toString GENERATION_COST ++ " jetons pour générer.") }
      trace := []
      threw := false }
  else
    let originalTokenBalance := s.tokenBalance
    let newBalanceAfterDeduction := originalTokenBalance - GENERATION_COST
    let s1 : AppState := { s with tokenBalance := newBalanceAfterDeduction }
    let tr1 := [Event.writeBalance newBalanceAfterDeduction]
    if !env.debitWriteOk then
      genRollback env originalTokenBalance s1 tr1 storageErrorText
    else
      let s2 : AppState := { s1 with store := { s1.store with tokenBalance := newBalanceAfterDeduction } }
      let tr2 := tr1 ++ [Event.remoteCall]
      match env.remoteResult with
      | .error e => genRollback env originalTokenBalance s2 tr2 e
      | .ok newPokemon =>
        let tr3 := tr2 ++ [Event.addItem newPokemon]
        if !env.itemWriteOk then
          genRollback env originalTokenBalance s2 tr3 storageErrorText
        else
          match addPokemonToStore s2.store.pokemons newPokemon with
          | none => genRollback env originalTokenBalance s2 tr3 storageErrorText
          | some storePokemons =>
            let s3 : AppState := { s2 with store := { s2.store with pokemons := storePokemons } }
            let updatedPokemons := sortByNewest (newPokemon :: s3.pokemons)
            let s4 : AppState := { s3 with pokemons := updatedPokemons }
            let achOut := checkAndUnlockAchievements env.achFailAt env.now
              updatedPokemons s4.achievements s4.store.achievements
            let s5 : AppState := { s4 with
                                   achievements := achOut.achievements,
                                   store := { s4.store with achievements := achOut.storeAchievements } }
            let tr4 := tr3 ++ achOut.trace
            if achOut.threw then
              genRollback env originalTokenBalance s5 tr4 storageErrorText
            else
              { state := { s5 with message := showMessage .success
                                     ("Nouveau Pokémon généré : " ++ newPokemon.name ++ " !") }
                trace := tr4
                threw := false }

/-- Outcomes of the fallible steps of one resale confirmation run. -/
structure SellEnv where
  itemWriteOk : Bool
  balanceWriteOk : Bool
  achFailAt : Option Nat
  now : Nat

/-- The confirmation callback installed by `handleResellConfirmation` in
App.tsx: persist the item with status `RESOLD`, persist the incremented
balance, update the in-memory mirrors, re-evaluate achievements; every
failure inside the try block is caught and shown as the resale error
message, with no compensating write. -/
def handleResellConfirm (env : SellEnv) (pokemon : Pokemon) (s : AppState) : ProtoResult :=
  let resellValue := getResellValue pokemon.rarity
  let updatedPokemon : Pokemon := { pokemon with status := PokemonStatus.RESOLD }
  let tr1 := [Event.putItem updatedPokemon]
  if !env.itemWriteOk then
    { state := { s with message := showMessage .error "Échec de la revente." }
      trace := tr1
      threw := false }
  else
    let s1 : AppState := { s with store := { s.store with
                            pokemons := putPokemonInStore s.store.pokemons updatedPokemon } }
    let newBalance := s.tokenBalance + resellValue
    let tr2 := tr1 ++ [Event.writeBalance newBalance]
    if !env.balanceWriteOk then
      { state := { s1 with message := showMessage .error "Échec de la revente." }
        trace := tr2
        threw := false }
    else
      let s2 : AppState := { s1 with store := { s1.store with tokenBalance := newBalance } }
      let updatedPokemons := s2.pokemons.map
        (fun p => if p.id = updatedPokemon.id then updatedPokemon else p)
      let s3 : AppState := { s2 with pokemons := updatedPokemons, tokenBalance := newBalance }
      let achOut := checkAndUnlockAchievements env.achFailAt env.now
        updatedPokemons s3.achievements s3.store.achievements
      let s4 : AppState := { s3 with
                             achievements := achOut.achievements,
                             store := { s3.store with achievements := achOut.storeAchievements } }
      let tr3 := tr2 ++ achOut.trace
      if achOut.threw then
        { state := { s4 with message := showMessage .error "Échec de la revente." }
          trace := tr3
          threw := false }
      else
        { state := { s4 with message := showMessage .success
                               (pokemon.name ++ " revendu ! +" ++ toString resellValue ++ " jetons.") }
          trace := tr3
          threw := false }

/-- Outcomes of the fallible steps of one `handleBuyPokemon` run. -/
structure BuyEnv where
  itemWriteOk : Bool
  balanceWriteOk : Bool

/-- `handleBuyPokemon` in App.tsx: guard on the balance against the buy
price, persist the item with status `OWNED`, persist the decremented
balance, then update the in-memory mirrors; every failure inside the try
block is caught and shown as the purchase error message, with no
compensating write.  No achievement evaluation runs. -/
def handleBuyPokemon (env : BuyEnv) (pokemon : Pokemon) (s : AppState) : ProtoResult :=
  let buyPrice := getBuyPrice pokemon.rarity
  if s.tokenBalance < buyPrice then
    { state := { s with message := showMessage .warning
                          ("Pas assez de jetons. Il vous faut " ++ toString buyPrice ++ " jetons.") }
      trace := []
      threw := false }
  else
    let updatedPokemon : Pokemon := { pokemon with status := PokemonStatus.OWNED }
    let tr1 := [Event.putItem updatedPokemon]
    if !env.itemWriteOk then
      { state := { s with message := showMessage .error "Échec de l\x27achat." }
        trace := tr1
        threw := false }
    else
      let s1 : AppState := { s with store := { s.store with
                              pokemons := putPokemonInStore s.store.pokemons updatedPokemon } }
      let newBalance := s.tokenBalance - buyPrice
      let tr2 := tr1 ++ [Event.writeBalance newBalance]
      if !env.balanceWriteOk then
        { state := { s1 with message := showMessage .error "Échec de l\x27achat." }
          trace := tr2
          threw := false }
      else
        { state := { s1 with
                     pokemons := s1.pokemons.map
                       (fun p => if p.id = updatedPokemon.id then updatedPokemon else p),
                     tokenBalance := newBalance,
                     store := { s1.store with tokenBalance := newBalance },
                     message := showMessage .success
                       (pokemon.name ++ " acheté ! -" ++ toString buyPrice ++ " jetons.") }
          trace := tr2
          threw := false }

/-- `Math.floor(Math.random() * 6) + 5` in `fetchAppData`: the random draw
ranges over `Fin 6`, giving an amount of 5 to 10 tokens. -/
def computeDailyBonusAmount (r : Fin 6) : Nat := r.val + 5

/-- The daily-bonus claim check of `fetchAppData` in App.tsx: offer an amount
when no claim is recorded or the recorded claim is from a different calendar
day (`toDateString` comparison); otherwise no offer. -/
def dailyBonusOffer (bonusStatus : Option DailyBonusStatus) (today : DateTime)
    (r : Fin 6) : Option Nat :=
  match bonusStatus with
  | none => some (computeDailyBonusAmount r)
  | some st =>
    if st.lastClaimed.day = today.day then none
    else some (computeDailyBonusAmount r)

/-- `handleClaimDailyBonus` in App.tsx: credit the balance by the offered
amount, persist it, and persist `lastClaimed := new Date().toISOString()` —
the full instant `now`, time-of-day included. -/
def handleClaimDailyBonus (now : DateTime) (dailyBonusAmount : Nat) (s : AppState) : ProtoResult :=
  let newBalance := s.tokenBalance + (dailyBonusAmount : Int)
  { state := { s with
               tokenBalance := newBalance,
               store := { s.store with
                          tokenBalance := newBalance,
                          dailyBonus := some { lastClaimed := now } },
               message := showMessage .success
                 ("Vous avez reçu " ++ toString dailyBonusAmount ++ " jetons !") }
    trace := [Event.writeBalance newBalance,
              Event.putDailyBonus { lastClaimed := now }]
    threw := false }

/-- One user operation, with the outcomes of its fallible steps. -/
inductive Op where
  | generate (env : GenEnv)
  | resell (pokemon : Pokemon) (env : SellEnv)
  | buy (pokemon : Pokemon) (env : BuyEnv)

/-- Apply one operation to the application state. -/
def applyOp (s : AppState) (op : Op) : AppState :=
  match op with
  | .generate env => (handleGeneratePokemon env s).state
  | .resell p env => (handleResellConfirm env p s).state
  | .buy p env => (handleBuyPokemon env p s).state

/-- Run a sequence of operations. -/
def runOps (s : AppState) (ops : List Op) : AppState :=
  ops.foldl applyOp s

/-- The state after a first load against an empty store: the default balance
row of 100 tokens (`getTokenBalance`), no items, no persisted achievements,
no daily-bonus record. -/
def initialAppState : AppState :=
  { pokemons := []
    tokenBalance := 100
    achievements := []
    message := none
    store := { pokemons := [], tokenBalance := 100, achievements := [], dailyBonus := none } }

/-- A sample owned item, used as a concrete input. -/
def pikachu : Pokemon :=
  { id := "pkm-001", name := "Pikachu", rarity := .LEGENDARY, imageBase64 := "QUJD",
    generatedAt := 1000, status := .OWNED, isFavorite := false }

/-- A sample resold (market) item, used as a concrete input. -/
def rattata : Pokemon :=
  { id := "pkm-002", name := "Rattata", rarity := .COMMON, imageBase64 := "REVG",
    generatedAt := 500, status := .RESOLD, isFavorite := false }

/-- A generation run in which every step succeeds. -/
def genEnvOk : GenEnv :=
  { debitWriteOk := true, remoteResult := .ok pikachu, itemWriteOk := true,
    achFailAt := none, rollbackWriteOk := true, now := 2000 }

/-- A generation run in which the remote call times out and the compensating
balance write succeeds. -/
def genEnvRemoteTimeout : GenEnv :=
  { debitWriteOk := true
    remoteResult := .error "The Pokémon generation request timed out after 30 seconds. The API might be busy, please try again later."
    itemWriteOk := true, achFailAt := none, rollbackWriteOk := true, now := 2000 }

/-- A generation run in which the remote call times out and the compensating
balance write itself rejects (the double-failure case of the spec). -/
def genEnvDoubleFailure : GenEnv :=
  { genEnvRemoteTimeout with rollbackWriteOk := false }

/-- A resale run in which every step succeeds. -/
def sellEnvOk : SellEnv :=
  { itemWriteOk := true, balanceWriteOk := true, achFailAt := none, now := 3000 }

/-- A resale run in which the balance write fails after the item write. -/
def sellEnvBalanceFail : SellEnv :=
  { itemWriteOk := true, balanceWriteOk := false, achFailAt := none, now := 3000 }

/-- A purchase run in which every step succeeds. -/
def buyEnvOk : BuyEnv := { itemWriteOk := true, balanceWriteOk := true }

/-- A purchase run in which the balance write fails after the item write. -/
def buyEnvBalanceFail : BuyEnv := { itemWriteOk := true, balanceWriteOk := false }

/-- A loaded state with only 3 tokens, below every cost in the system. -/
def lowBalanceState : AppState :=
  { initialAppState with
    tokenBalance := 3,
    store := { initialAppState.store with tokenBalance := 3 } }

/-- A loaded state whose collection holds one resold market item. -/
def marketState : AppState :=
  { initialAppState with
    pokemons := [rattata],
    store := { initialAppState.store with pokemons := [rattata] } }

/-- A resold Epic market item (buy price 40), used as a concrete input. -/
def haunter : Pokemon :=
  { id := "pkm-004", name := "Haunter", rarity := .EPIC, imageBase64 := "R0hJ",
    generatedAt := 800, status := .RESOLD, isFavorite := false }

/-- A loaded state with 15 tokens — enough to generate, not enough to buy an
Epic market item — whose collection holds that item. -/
def midBalanceState : AppState :=
  { initialAppState with
    pokemons := [haunter],
    tokenBalance := 15,
    store := { initialAppState.store with pokemons := [haunter], tokenBalance := 15 } }

/-- A concrete operation sequence exercising all three protocols and a
failing run. -/
def sampleOps : List Op :=
  [ .generate genEnvOk, .resell pikachu sellEnvOk, .buy rattata buyEnvOk,
    .generate genEnvDoubleFailure ]

/-- A well-formed 200-response body of the generation endpoint. -/
def validRawData : RawApiData :=
  { imageBase64 := some "QUJD"
    metadata := some { id := some "pkm-003", name := some "Evoli", rarity := some "S+" }
    generatedAt := some 4000 }

/-- The item that `validRawData` parses to. -/
def evoliParsed : Pokemon :=
  { id := "pkm-003", name := "Evoli", rarity := .MYTHIC, imageBase64 := "QUJD",
    generatedAt := 4000, status := .OWNED, isFavorite := false }

/-- The first entry of the achievement table, as a named constant. -/
def firstForgeDef : AchievementDef :=
  { id := "FIRST_FORGE", name := "Première Forge",
    description := "Générer votre premier Pokémon." }

/-- A first-forge achievement record already unlocked at instant 1500. -/
def unlockedFirstForge : Achievement :=
  { id := "FIRST_FORGE", name := "Première Forge",
    description := "Générer votre premier Pokémon.",
    unlocked := true, unlockedAt := some 1500 }

/-! ## Helper lemmas on keyed lookup -/

/-- Replacing by key and then looking the key up yields the replacement
(map branch of `putPokemonInStore`, when the key is present). -/
theorem find?_map_update_of_any (l : List Pokemon) (p : Pokemon)
    (h : l.any (fun q => decide (q.id = p.id)) = true) :
    (l.map (fun q => if q.id = p.id then p else q)).find?
      (fun q => decide (q.id = p.id)) = some p := by
  induction l with
  | nil => simp at h
  | cons a rest ih =>
    by_cases ha : a.id = p.id
    · simp [ha]
    · simp only [List.any_cons, ha, decide_False, Bool.false_or] at h
      simp [ha, ih h]

/-- A keyed `put` on the pokemons store followed by a lookup of that key
yields the written record. -/
theorem find?_putPokemonInStore_self (l : List Pokemon) (p : Pokemon) :
    (putPokemonInStore l p).find? (fun q => decide (q.id = p.id)) = some p := by
  unfold putPokemonInStore
  by_cases h : l.any (fun q => decide (q.id = p.id)) = true
  · rw [if_pos h]
    exact find?_map_update_of_any l p h
  · rw [if_neg h]
    have hn : l.find? (fun q => decide (q.id = p.id)) = none := by
      rw [List.find?_eq_none]
      intro x hx hpx
      exact h (List.any_eq_true.mpr ⟨x, hx, hpx⟩)
    simp [List.find?_append, hn]

/-- Replacing the first entry of a key that is present, then looking the key
up, yields the replacement. -/
theorem find?_replaceFirstAch_of_any (l : List Achievement) (u : Achievement)
    (h : l.any (fun a => decide (a.id = u.id)) = true) :
    (replaceFirstAch l u).find? (fun a => decide (a.id = u.id)) = some u := by
  induction l with
  | nil => simp at h
  | cons a rest ih =>
    by_cases ha : a.id = u.id
    · simp [replaceFirstAch, ha]
    · simp only [List.any_cons, ha, decide_False, Bool.false_or] at h
      simp [replaceFirstAch, ha, ih h]

/-- Replacing the first entry of one key leaves lookups of other keys
unchanged. -/
theorem find?_replaceFirstAch_ne (l : List Achievement) (u : Achievement) (x : String)
    (hne : u.id ≠ x) :
    (replaceFirstAch l u).find? (fun a => decide (a.id = x))
      = l.find? (fun a => decide (a.id = x)) := by
  induction l with
  | nil => simp [replaceFirstAch]
  | cons a rest ih =>
    by_cases ha : a.id = u.id
    · have hax : ¬ a.id = x := by rw [ha]; exact hne
      simp [replaceFirstAch, ha, hne, hax]
    · simp only [replaceFirstAch, if_neg ha]
      by_cases hax : a.id = x
      · simp [hax]
      · simp [hax, ih]

/-- Merging one unlock record and looking its key up yields that record. -/
theorem find?_mergeOne_self (l : List Achievement) (u : Achievement) :
    (mergeOne l u).find? (fun a => decide (a.id = u.id)) = some u := by
  unfold mergeOne
  by_cases h : l.any (fun a => decide (a.id = u.id)) = true
  · rw [if_pos h]
    exact find?_replaceFirstAch_of_any l u h
  · rw [if_neg h]
    have hn : l.find? (fun a => decide (a.id = u.id)) = none := by
      rw [List.find?_eq_none]
      intro x hx hpx
      exact h (List.any_eq_true.mpr ⟨x, hx, hpx⟩)
    simp [List.find?_append, hn]

/-- Merging one unlock record leaves lookups of other keys unchanged. -/
theorem find?_mergeOne_ne (l : List Achievement) (u : Achievement) (x : String)
    (hne : u.id ≠ x) :
    (mergeOne l u).find? (fun a => decide (a.id = x))
      = l.find? (fun a => decide (a.id = x)) := by
  unfold mergeOne
  split
  · exact find?_replaceFirstAch_ne l u x hne
  · simp [List.find?_append, hne]

/-- Folding a merge of records none of which carries the key leaves lookups
of that key unchanged. -/
theorem find?_foldl_mergeOne_of_forall_ne (news : List Achievement)
    (l : List Achievement) (x : String) (h : ∀ u ∈ news, u.id ≠ x) :
    (news.foldl mergeOne l).find? (fun a => decide (a.id = x))
      = l.find? (fun a => decide (a.id = x)) := by
  induction news generalizing l with
  | nil => rfl
  | cons u rest ih =>
    rw [List.foldl_cons, ih _ (fun v hv => h v (List.mem_cons_of_mem _ hv)),
      find?_mergeOne_ne _ _ _ (h u (List.mem_cons_self _ _))]

/-- Folding a merge of records with pairwise-distinct keys makes the lookup
of each merged record's key yield that record. -/
theorem find?_foldl_mergeOne_of_mem (news : List Achievement) (l : List Achievement)
    (u : Achievement) (hmem : u ∈ news) (hnodup : (news.map (fun a => a.id)).Nodup) :
    (news.foldl mergeOne l).find? (fun a => decide (a.id = u.id)) = some u := by
  obtain ⟨pre, post, rfl⟩ := List.append_of_mem hmem
  rw [List.foldl_append, List.foldl_cons]
  have hpost : ∀ v ∈ post, v.id ≠ u.id := by
    intro v hv he
    rw [List.map_append, List.map_cons] at hnodup
    have h2 := hnodup.of_append_right
    rw [List.nodup_cons] at h2
    exact h2.1 (he ▸ List.mem_map_of_mem _ hv)
  rw [find?_foldl_mergeOne_of_forall_ne post _ u.id hpost, find?_mergeOne_self]

/-- Every record produced by one evaluation run comes from a table entry
that was not already unlocked and whose predicate holds. -/
theorem of_mem_newlyUnlocked {ps : List Pokemon} {achs : List Achievement}
    {now : Nat} {u : Achievement} (h : u ∈ newlyUnlocked ps achs now) :
    ∃ d ∈ ALL_ACHIEVEMENTS, alreadyUnlocked achs d.id = false
      ∧ shouldUnlock d.id ps = true ∧ u = unlockedNow d now := by
  unfold newlyUnlocked at h
  obtain ⟨d, hd, rfl⟩ := List.mem_map.mp h
  obtain ⟨hdmem, hcond⟩ := List.mem_filter.mp hd
  rw [Bool.and_eq_true, Bool.not_eq_true'] at hcond
  exact ⟨d, hdmem, hcond.1, hcond.2, rfl⟩

/-- Conversely, every table entry that is not already unlocked and whose
predicate holds contributes its unlock record to the run. -/
theorem mem_newlyUnlocked_of (ps : List Pokemon) (achs : List Achievement)
    (now : Nat) (d : AchievementDef) (hd : d ∈ ALL_ACHIEVEMENTS)
    (h1 : alreadyUnlocked achs d.id = false) (h2 : shouldUnlock d.id ps = true) :
    unlockedNow d now ∈ newlyUnlocked ps achs now := by
  unfold newlyUnlocked
  exact List.mem_map_of_mem _ (List.mem_filter.mpr ⟨hd, by rw [h1, h2]; rfl⟩)

/-- The keys of the records of one evaluation run are pairwise distinct. -/
theorem newlyUnlocked_ids_nodup (ps : List Pokemon) (achs : List Achievement)
    (now : Nat) : ((newlyUnlocked ps achs now).map (fun a => a.id)).Nodup := by
  unfold newlyUnlocked
  rw [List.map_map]
  have hco : ((fun a : Achievement => a.id) ∘ fun d => unlockedNow d now)
      = fun d : AchievementDef => d.id := rfl
  rw [hco]
  have hsub : ((ALL_ACHIEVEMENTS.filter fun d =>
        !alreadyUnlocked achs d.id && shouldUnlock d.id ps).map fun d => d.id).Sublist
      (ALL_ACHIEVEMENTS.map fun d => d.id) :=
    (List.filter_sublist _).map _
  exact (by decide : (ALL_ACHIEVEMENTS.map fun d => d.id).Nodup).sublist hsub

/-! ## Claim C5 -/

/-- C5: for every achievement, once its `unlocked` flag is true, an
achievement evaluation run — over any item set and any write-failure
schedule — issues no `updateAchievement` write for it, leaves its in-memory
record (its `unlocked` flag and its `unlockedAt`, set at first unlock)
unchanged, and leaves its persisted record unchanged; in particular
re-running evaluation on an unchanged item set changes no already-unlocked
achievement. -/
theorem achievements_monotonic (achFailAt : Option Nat) (now : Nat)
    (ps : List Pokemon) (achs storeAchs : List Achievement) (a : Achievement)
    (hfind : achs.find? (fun x => decide (x.id = a.id)) = some a)
    (hunl : a.unlocked = true) :
    (∀ e ∈ (checkAndUnlockAchievements achFailAt now ps achs storeAchs).trace,
        ∀ b, e = Event.putAchievement b → b.id ≠ a.id) ∧
    (checkAndUnlockAchievements achFailAt now ps achs storeAchs).achievements.find?
        (fun x => decide (x.id = a.id)) = some a ∧
    (checkAndUnlockAchievements achFailAt now ps achs storeAchs).storeAchievements.find?
        (fun x => decide (x.id = a.id))
      = storeAchs.find? (fun x => decide (x.id = a.id)) := by
  have halready : alreadyUnlocked achs a.id = true := by
    unfold alreadyUnlocked
    rw [hfind]
    exact hunl
  have hne : ∀ u ∈ newlyUnlocked ps achs now, u.id ≠ a.id := by
    intro u hu he
    obtain ⟨d, hd, hna, hsh, rfl⟩ := of_mem_newlyUnlocked hu
    rw [show (unlockedNow d now).id = d.id from rfl] at he
    rw [he, halready] at hna
    exact Bool.noConfusion hna
  have htr : ∀ t : List Event, t.Sublist ((newlyUnlocked ps achs now).map Event.putAchievement) →
      ∀ e ∈ t, ∀ b, e = Event.putAchievement b → b.id ≠ a.id := by
    intro t hsub e het b heb
    obtain ⟨u, hu, hue⟩ := List.mem_map.mp (hsub.subset het)
    rw [heb] at hue
    cases hue
    exact hne b hu
  cases achFailAt with
  | none =>
    refine ⟨?_, ?_, ?_⟩
    · exact htr _ (List.Sublist.refl _)
    · rw [show (checkAndUnlockAchievements none now ps achs storeAchs).achievements
          = (newlyUnlocked ps achs now).foldl mergeOne achs from rfl]
      rw [find?_foldl_mergeOne_of_forall_ne _ _ _ hne, hfind]
    · exact find?_foldl_mergeOne_of_forall_ne _ _ _ hne
  | some k =>
    by_cases hk : k < (newlyUnlocked ps achs now).length
    · refine ⟨?_, ?_, ?_⟩
      · have : (checkAndUnlockAchievements (some k) now ps achs storeAchs).trace
            = ((newlyUnlocked ps achs now).take (k + 1)).map Event.putAchievement := by
          simp [checkAndUnlockAchievements, hk]
        rw [this]
        exact htr _ ((List.take_sublist _ _).map _)
      · simp [checkAndUnlockAchievements, hk, hfind]
      · have : (checkAndUnlockAchievements (some k) now ps achs storeAchs).storeAchievements
            = ((newlyUnlocked ps achs now).take k).foldl mergeOne storeAchs := by
          simp [checkAndUnlockAchievements, hk]
        rw [this]
        exact find?_foldl_mergeOne_of_forall_ne _ _ _
          (fun u hu => hne u ((List.take_subset _ _) hu))
    · refine ⟨?_, ?_, ?_⟩
      · have : (checkAndUnlockAchievements (some k) now ps achs storeAchs).trace
            = (newlyUnlocked ps achs now).map Event.putAchievement := by
          simp [checkAndUnlockAchievements, hk]
        rw [this]
        exact htr _ (List.Sublist.refl _)
      · have : (checkAndUnlockAchievements (some k) now ps achs storeAchs).achievements
            = (newlyUnlocked ps achs now).foldl mergeOne achs := by
          simp [checkAndUnlockAchievements, hk]
        rw [this, find?_foldl_mergeOne_of_forall_ne _ _ _ hne, hfind]
      · have : (checkAndUnlockAchievements (some k) now ps achs storeAchs).storeAchievements
            = (newlyUnlocked ps achs now).foldl mergeOne storeAchs := by
          simp [checkAndUnlockAchievements, hk]
        rw [this]
        exact find?_foldl_mergeOne_of_forall_ne _ _ _ hne

/-- Witness for C5 at concrete inputs: an already-unlocked first-forge
record survives a re-evaluation unchanged. -/
theorem achievements_monotonic_witness :
    ([unlockedFirstForge].find? (fun x => decide (x.id = unlockedFirstForge.id))
        = some unlockedFirstForge) ∧
    unlockedFirstForge.unlocked = true ∧
    (checkAndUnlockAchievements none 9999 [pikachu] [unlockedFirstForge] []).achievements.find?
        (fun x => decide (x.id = unlockedFirstForge.id)) = some unlockedFirstForge :=
  ⟨by decide, by decide,
   (achievements_monotonic none 9999 [pikachu] [unlockedFirstForge] [] unlockedFirstForge
      (by decide) (by decide)).2.1⟩

/-! ## Claim C6 -/

/-- C6: achievement evaluation decides each of the four fixed definitions by
its predicate over the current full item set — first generation iff at least
one item, tenth generation iff at least ten items, first resale iff some item
has status Resold, Legendary forge iff some item has rarity Legendary or
Mythic (regardless of status) — and every definition newly satisfied is
persisted with `unlocked = true` and the current instant as `unlockedAt`,
then merged into the in-memory set. -/
theorem achievements_evaluation (now : Nat) (ps : List Pokemon)
    (achs storeAchs : List Achievement) :
    (shouldUnlock "FIRST_FORGE" ps = decide (ps.length ≥ 1)) ∧
    (shouldUnlock "TEN_FORGES" ps = decide (ps.length ≥ 10)) ∧
    (shouldUnlock "FIRST_SALE" ps
      = ps.any (fun p => decide (p.status = PokemonStatus.RESOLD))) ∧
    (shouldUnlock "LEGENDARY_FORGE" ps
      = ps.any (fun p => decide (p.rarity = PokemonRarity.LEGENDARY)
          || decide (p.rarity = PokemonRarity.MYTHIC))) ∧
    (∀ d ∈ ALL_ACHIEVEMENTS, alreadyUnlocked achs d.id = false →
      shouldUnlock d.id ps = true →
        (unlockedNow d now).unlocked = true ∧
        (unlockedNow d now).unlockedAt = some now ∧
        Event.putAchievement (unlockedNow d now)
          ∈ (checkAndUnlockAchievements none now ps achs storeAchs).trace ∧
        (checkAndUnlockAchievements none now ps achs storeAchs).achievements.find?
          (fun x => decide (x.id = d.id)) = some (unlockedNow d now) ∧
        (checkAndUnlockAchievements none now ps achs storeAchs).storeAchievements.find?
          (fun x => decide (x.id = d.id)) = some (unlockedNow d now)) := by
  refine ⟨?_, ?_, ?_, ?_, ?_⟩
  · unfold shouldUnlock
    rw [if_pos rfl]
  · unfold shouldUnlock
    rw [if_neg (by decide), if_pos rfl]
  · unfold shouldUnlock
    rw [if_neg (by decide), if_neg (by decide), if_pos rfl]
  · unfold shouldUnlock
    rw [if_neg (by decide), if_neg (by decide), if_neg (by decide), if_pos rfl]
  · intro d hd hna hsh
    have hmem : unlockedNow d now ∈ newlyUnlocked ps achs now :=
      mem_newlyUnlocked_of ps achs now d hd hna hsh
    have hid : (unlockedNow d now).id = d.id := rfl
    refine ⟨rfl, rfl, ?_, ?_, ?_⟩
    · exact List.mem_map_of_mem _ hmem
    · rw [show (checkAndUnlockAchievements none now ps achs storeAchs).achievements
          = (newlyUnlocked ps achs now).foldl mergeOne achs from rfl, ← hid]
      exact find?_foldl_mergeOne_of_mem _ _ _ hmem (newlyUnlocked_ids_nodup ps achs now)
    · rw [show (checkAndUnlockAchievements none now ps achs storeAchs).storeAchievements
          = (newlyUnlocked ps achs now).foldl mergeOne storeAchs from rfl, ← hid]
      exact find?_foldl_mergeOne_of_mem _ _ _ hmem (newlyUnlocked_ids_nodup ps achs now)

/-- Witness for C6 at concrete inputs: with one owned item and no unlocked
achievements, the first-forge definition is newly satisfied and its unlock
record is persisted during evaluation. -/
theorem achievements_evaluation_witness :
    firstForgeDef ∈ ALL_ACHIEVEMENTS ∧
    alreadyUnlocked [] firstForgeDef.id = false ∧
    shouldUnlock firstForgeDef.id [pikachu] = true ∧
    Event.putAchievement (unlockedNow firstForgeDef 2000)
      ∈ (checkAndUnlockAchievements none 2000 [pikachu] [] []).trace :=
  ⟨by decide, by decide, by decide,
   ((achievements_evaluation 2000 [pikachu] [] []).2.2.2.2 firstForgeDef
      (by decide) (by decide) (by decide)).2.2.1⟩

/-! ## Claim C9 -/

/-- C9: the remote rarity code is mapped to the tier enum exactly as F,E →
Common; D,C → Rare; B → Epic; A,S → Legendary; S+ → Mythic; every other code
→ Common; and every item built from a successful generate response has
status `OWNED` and `isFavorite` false. -/
theorem rarity_mapping_and_new_item_defaults (c : String) (d : RawApiData)
    (p : Pokemon) (hc : c ∉ (["F", "E", "D", "C", "B", "A", "S", "S+"] : List String))
    (hp : generatePokemonFromResponse d = .ok p) :
    mapApiRarityToEnum "F" = .COMMON ∧ mapApiRarityToEnum "E" = .COMMON ∧
    mapApiRarityToEnum "D" = .RARE ∧ mapApiRarityToEnum "C" = .RARE ∧
    mapApiRarityToEnum "B" = .EPIC ∧
    mapApiRarityToEnum "A" = .LEGENDARY ∧ mapApiRarityToEnum "S" = .LEGENDARY ∧
    mapApiRarityToEnum "S+" = .MYTHIC ∧
    mapApiRarityToEnum c = .COMMON ∧
    p.status = .OWNED ∧ p.isFavorite = false := by
  simp only [List.mem_cons, List.not_mem_nil, or_false, not_or] at hc
  obtain ⟨h1, h2, h3, h4, h5, h6, h7, h8⟩ := hc
  have hpok : p.status = PokemonStatus.OWNED ∧ p.isFavorite = false := by
    obtain ⟨img, mdo, gen⟩ := d
    cases mdo with
    | none => simp [generatePokemonFromResponse] at hp
    | some md =>
      simp only [generatePokemonFromResponse] at hp
      split at hp
      · cases hp
        exact ⟨rfl, rfl⟩
      · exact Except.noConfusion hp
  refine ⟨by decide, by decide, by decide, by decide, by decide, by decide, by decide,
    by decide, ?_, hpok.1, hpok.2⟩
  simp [mapApiRarityToEnum, h1, h2, h3, h4, h5, h6, h7, h8]

/-- Witness for C9 at concrete inputs: the unknown code Z maps to Common,
and the item parsed from a valid response is owned and not favorite. -/
theorem rarity_mapping_and_new_item_defaults_witness :
    ("Z" ∉ (["F", "E", "D", "C", "B", "A", "S", "S+"] : List String)) ∧
    generatePokemonFromResponse validRawData = .ok evoliParsed ∧
    (mapApiRarityToEnum "Z" = .COMMON ∧
      evoliParsed.status = .OWNED ∧ evoliParsed.isFavorite = false) :=
  ⟨by decide, by rfl,
   (rarity_mapping_and_new_item_defaults "Z" validRawData evoliParsed
      (by decide) (by rfl)).2.2.2.2.2.2.2.2⟩

/-! ## Claim C4 -/

/-- C4: a generation attempt with balance below the generation cost, and a
purchase attempt with balance below the buy price, issue no store request at
all: the trace is empty, a warning message is reported, and the in-memory
balance, the item list and the whole persisted store are unchanged. -/
theorem insufficient_funds_rejected (envG : GenEnv) (envB : BuyEnv)
    (p : Pokemon) (s t : AppState)
    (hg : s.tokenBalance < GENERATION_COST)
    (hb : t.tokenBalance < getBuyPrice p.rarity) :
    (handleGeneratePokemon envG s).trace = [] ∧
    (handleGeneratePokemon envG s).state.tokenBalance = s.tokenBalance ∧
    (handleGeneratePokemon envG s).state.store = s.store ∧
    (handleGeneratePokemon envG s).state.pokemons = s.pokemons ∧
    (∃ w, (handleGeneratePokemon envG s).state.message = showMessage .warning w) ∧
    (handleBuyPokemon envB p t).trace = [] ∧
    (handleBuyPokemon envB p t).state.tokenBalance = t.tokenBalance ∧
    (handleBuyPokemon envB p t).state.store = t.store ∧
    (handleBuyPokemon envB p t).state.pokemons = t.pokemons ∧
    (∃ w, (handleBuyPokemon envB p t).state.message = showMessage .warning w) := by
  unfold handleGeneratePokemon handleBuyPokemon
  rw [if_pos hg, if_pos hb]
  exact ⟨rfl, rfl, rfl, rfl, ⟨_, rfl⟩, rfl, rfl, rfl, rfl, ⟨_, rfl⟩⟩

/-- Witness for C4 at concrete inputs: with 3 tokens a generation never
starts, and with 15 tokens — above the generation cost — a purchase of an
Epic market item priced 40 never starts either. -/
theorem insufficient_funds_rejected_witness :
    lowBalanceState.tokenBalance < GENERATION_COST ∧
    midBalanceState.tokenBalance < getBuyPrice haunter.rarity ∧
    ((handleGeneratePokemon genEnvOk lowBalanceState).trace = [] ∧
      (handleBuyPokemon buyEnvOk haunter midBalanceState).state.store
        = midBalanceState.store) :=
  ⟨by decide, by decide,
   (insufficient_funds_rejected genEnvOk buyEnvOk haunter lowBalanceState
      midBalanceState (by decide) (by decide)).1,
   (insufficient_funds_rejected genEnvOk buyEnvOk haunter lowBalanceState
      midBalanceState (by decide) (by decide)).2.2.2.2.2.2.2.1⟩

/-! ## Claim C7 -/

/-- C7: the resale value table is Common=5, Rare=10, Epic=20, Legendary=40,
Mythic=80 tokens, the buy price is exactly twice the resale value of the same
rarity, and a confirmed resale of an Owned item (with both writes
succeeding) persists the item with status `RESOLD` and persists — and
mirrors in memory — the balance incremented by exactly the resale value. -/
theorem resale_table_and_protocol (env : SellEnv) (p : Pokemon) (s : AppState)
    (howned : p.status = .OWNED) (hitem : env.itemWriteOk = true)
    (hbal : env.balanceWriteOk = true) :
    getResellValue .COMMON = 5 ∧ getResellValue .RARE = 10 ∧
    getResellValue .EPIC = 20 ∧ getResellValue .LEGENDARY = 40 ∧
    getResellValue .MYTHIC = 80 ∧
    (∀ r, getBuyPrice r = getResellValue r * 2) ∧
    (handleResellConfirm env p s).state.store.pokemons.find?
        (fun q => decide (q.id = p.id)) = some { p with status := .RESOLD } ∧
    (handleResellConfirm env p s).state.store.tokenBalance
      = s.tokenBalance + getResellValue p.rarity ∧
    (handleResellConfirm env p s).state.tokenBalance
      = s.tokenBalance + getResellValue p.rarity := by
  have hout : (handleResellConfirm env p s).state.store.pokemons
        = putPokemonInStore s.store.pokemons { p with status := PokemonStatus.RESOLD } ∧
      (handleResellConfirm env p s).state.store.tokenBalance
        = s.tokenBalance + getResellValue p.rarity ∧
      (handleResellConfirm env p s).state.tokenBalance
        = s.tokenBalance + getResellValue p.rarity := by
    simp only [handleResellConfirm, hitem, hbal, Bool.not_true, Bool.false_eq_true, if_false]
    split <;> exact ⟨rfl, rfl, rfl⟩
  refine ⟨rfl, rfl, rfl, rfl, rfl, fun r => rfl, ?_, hout.2.1, hout.2.2⟩
  rw [hout.1]
  exact find?_putPokemonInStore_self s.store.pokemons { p with status := PokemonStatus.RESOLD }

/-- Witness for C7 at concrete inputs: reselling the owned Legendary item
credits 40 tokens and persists the Resold record. -/
theorem resale_table_and_protocol_witness :
    pikachu.status = .OWNED ∧ sellEnvOk.itemWriteOk = true ∧
    sellEnvOk.balanceWriteOk = true ∧
    ((handleResellConfirm sellEnvOk pikachu marketState).state.store.tokenBalance
        = marketState.tokenBalance + getResellValue pikachu.rarity ∧
      (handleResellConfirm sellEnvOk pikachu marketState).state.store.pokemons.find?
        (fun q => decide (q.id = pikachu.id)) = some { pikachu with status := .RESOLD }) :=
  ⟨by decide, by decide, by decide,
   (resale_table_and_protocol sellEnvOk pikachu marketState
      (by decide) (by decide) (by decide)).2.2.2.2.2.2.2.1,
   (resale_table_and_protocol sellEnvOk pikachu marketState
      (by decide) (by decide) (by decide)).2.2.2.2.2.2.1⟩

/-! ## Claim C10 -/

/-- C10: resale and purchase have no rollback: in both protocols the
item-status write is issued before the balance write, and when the balance
write fails after a successful item-status write, no compensating write
restores the item — the store keeps the item under its new status while both
balances are unchanged, the in-memory list is untouched, and only an error
message is shown. -/
theorem resell_buy_no_rollback (envS : SellEnv) (envB : BuyEnv)
    (p q : Pokemon) (s t : AppState)
    (hsi : envS.itemWriteOk = true) (hsb : envS.balanceWriteOk = false)
    (hbi : envB.itemWriteOk = true) (hbb : envB.balanceWriteOk = false)
    (hguard : ¬ t.tokenBalance < getBuyPrice q.rarity) :
    ((handleResellConfirm envS p s).trace
        = [Event.putItem { p with status := .RESOLD },
           Event.writeBalance (s.tokenBalance + getResellValue p.rarity)] ∧
      (handleResellConfirm envS p s).state.store.pokemons
        = putPokemonInStore s.store.pokemons { p with status := .RESOLD } ∧
      (handleResellConfirm envS p s).state.store.tokenBalance = s.store.tokenBalance ∧
      (handleResellConfirm envS p s).state.tokenBalance = s.tokenBalance ∧
      (handleResellConfirm envS p s).state.pokemons = s.pokemons ∧
      (handleResellConfirm envS p s).state.message
        = showMessage .error "Échec de la revente.") ∧
    ((handleBuyPokemon envB q t).trace
        = [Event.putItem { q with status := .OWNED },
           Event.writeBalance (t.tokenBalance - getBuyPrice q.rarity)] ∧
      (handleBuyPokemon envB q t).state.store.pokemons
        = putPokemonInStore t.store.pokemons { q with status := .OWNED } ∧
      (handleBuyPokemon envB q t).state.store.tokenBalance = t.store.tokenBalance ∧
      (handleBuyPokemon envB q t).state.tokenBalance = t.tokenBalance ∧
      (handleBuyPokemon envB q t).state.pokemons = t.pokemons ∧
      (handleBuyPokemon envB q t).state.message
        = showMessage .error "Échec de l\x27achat.") := by
  simp only [handleResellConfirm, handleBuyPokemon, hsi, hsb, hbi, hbb,
    Bool.not_true, Bool.not_false, Bool.false_eq_true, if_false,
    eq_self_iff_true, if_true, if_neg hguard]
  exact ⟨⟨rfl, trivial, trivial, trivial, trivial, trivial⟩,
    ⟨rfl, trivial, trivial, trivial, trivial, trivial⟩⟩

/-- Witness for C10 at concrete inputs: a failing balance write leaves the
resold item in the store with its new status and the balances unchanged. -/
theorem resell_buy_no_rollback_witness :
    sellEnvBalanceFail.itemWriteOk = true ∧ sellEnvBalanceFail.balanceWriteOk = false ∧
    buyEnvBalanceFail.itemWriteOk = true ∧ buyEnvBalanceFail.balanceWriteOk = false ∧
    ¬ marketState.tokenBalance < getBuyPrice rattata.rarity ∧
    ((handleResellConfirm sellEnvBalanceFail pikachu marketState).state.store.pokemons
        = putPokemonInStore marketState.store.pokemons { pikachu with status := .RESOLD } ∧
      (handleBuyPokemon buyEnvBalanceFail rattata marketState).state.store.tokenBalance
        = marketState.store.tokenBalance) :=
  ⟨by decide, by decide, by decide, by decide, by decide,
   ((resell_buy_no_rollback sellEnvBalanceFail buyEnvBalanceFail pikachu rattata
      marketState marketState (by decide) (by decide) (by decide) (by decide)
      (by decide)).1).2.1,
   ((resell_buy_no_rollback sellEnvBalanceFail buyEnvBalanceFail pikachu rattata
      marketState marketState (by decide) (by decide) (by decide) (by decide)
      (by decide)).2).2.2.1⟩

/-! ## Claim C8 -/

/-- C8 (code-bug evaluation): claiming the daily bonus at an instant with a
nonzero time of day credits both balances by the offered amount and makes
the same-day re-check yield no offer (a next-day check offers an amount in
the inclusive range 5 to 10); but the persisted `lastClaimed` retains the
full instant including its time-of-day component — the code persists
`new Date().toISOString()`, a timestamp, where the claim and the declared
type of `DailyBonusStatus.lastClaimed` (an ISO date string, YYYY-MM-DD) say
the bare calendar date is persisted. -/
theorem daily_bonus_claim_behavior :
    (handleClaimDailyBonus ⟨20007, 51000000⟩ 7 initialAppState).state.store.dailyBonus
      = some { lastClaimed := ⟨20007, 51000000⟩ } ∧
    (51000000 : Nat) ≠ 0 ∧
    (handleClaimDailyBonus ⟨20007, 51000000⟩ 7 initialAppState).state.tokenBalance
      = initialAppState.tokenBalance + 7 ∧
    (handleClaimDailyBonus ⟨20007, 51000000⟩ 7 initialAppState).state.store.tokenBalance
      = initialAppState.store.tokenBalance + 7 ∧
    (∀ r : Fin 6, dailyBonusOffer
        ((handleClaimDailyBonus ⟨20007, 51000000⟩ 7 initialAppState).state.store.dailyBonus)
        ⟨20007, 61000000⟩ r = none) ∧
    (∀ r : Fin 6, dailyBonusOffer
        ((handleClaimDailyBonus ⟨20007, 51000000⟩ 7 initialAppState).state.store.dailyBonus)
        ⟨20008, 1000⟩ r = some (computeDailyBonusAmount r) ∧
      5 ≤ computeDailyBonusAmount r ∧ computeDailyBonusAmount r ≤ 10) := by
  decide

/-- The compensating rollback issues exactly one further request, the
compensating balance write, whether or not that write succeeds. -/
theorem genRollback_trace (env : GenEnv) (o : Int) (s : AppState)
    (tr : List Event) (e : String) :
    (genRollback env o s tr e).trace = tr ++ [Event.writeBalance o] := by
  unfold genRollback
  split <;> rfl

/-- Every request issued by an achievement evaluation run is an
`updateAchievement` write. -/
theorem checkAndUnlock_trace_shape (achFailAt : Option Nat) (now : Nat)
    (ps : List Pokemon) (achs st : List Achievement) :
    ∀ e ∈ (checkAndUnlockAchievements achFailAt now ps achs st).trace,
      ∃ a, e = Event.putAchievement a := by
  intro e he
  cases achFailAt with
  | none =>
    obtain ⟨a, _, hae⟩ := List.mem_map.mp he
    exact ⟨a, hae.symm⟩
  | some k =>
    by_cases hk : k < (newlyUnlocked ps achs now).length
    · have htr : (checkAndUnlockAchievements (some k) now ps achs st).trace
          = ((newlyUnlocked ps achs now).take (k + 1)).map Event.putAchievement := by
        simp [checkAndUnlockAchievements, hk]
      rw [htr] at he
      obtain ⟨a, _, hae⟩ := List.mem_map.mp he
      exact ⟨a, hae.symm⟩
    · have htr : (checkAndUnlockAchievements (some k) now ps achs st).trace
          = (newlyUnlocked ps achs now).map Event.putAchievement := by
        simp [checkAndUnlockAchievements, hk]
      rw [htr] at he
      obtain ⟨a, _, hae⟩ := List.mem_map.mp he
      exact ⟨a, hae.symm⟩

/-! ## Claim C3 -/

/-- C3: in every generation attempt passing the balance guard, the balance
decremented by the fixed cost is the first request issued — persisted before
the remote call — and the steps run strictly in sequence: the remote call
appears only directly after a successful debit write, and an item persist
appears only directly after the remote call returned exactly that item. -/
theorem generation_ordering (env : GenEnv) (s : AppState)
    (h : ¬ s.tokenBalance < GENERATION_COST) :
    (∃ t, (handleGeneratePokemon env s).trace
        = Event.writeBalance (s.tokenBalance - GENERATION_COST) :: t) ∧
    (Event.remoteCall ∈ (handleGeneratePokemon env s).trace →
      env.debitWriteOk = true ∧
      ∃ t, (handleGeneratePokemon env s).trace
        = Event.writeBalance (s.tokenBalance - GENERATION_COST)
            :: Event.remoteCall :: t) ∧
    (∀ p, Event.addItem p ∈ (handleGeneratePokemon env s).trace →
      env.debitWriteOk = true ∧ env.remoteResult = .ok p ∧
      ∃ t, (handleGeneratePokemon env s).trace
        = Event.writeBalance (s.tokenBalance - GENERATION_COST)
            :: Event.remoteCall :: Event.addItem p :: t) := by
  obtain ⟨dw, rr, iw, af, rwk, n⟩ := env
  cases dw with
  | false =>
    have htr : (handleGeneratePokemon ⟨false, rr, iw, af, rwk, n⟩ s).trace
        = [Event.writeBalance (s.tokenBalance - GENERATION_COST),
           Event.writeBalance s.tokenBalance] := by
      simp [handleGeneratePokemon, h, genRollback_trace]
    refine ⟨⟨_, htr⟩, ?_, ?_⟩
    · intro hmem
      rw [htr] at hmem
      simp at hmem
    · intro p hmem
      rw [htr] at hmem
      simp at hmem
  | true =>
    cases rr with
    | error e =>
      have htr : (handleGeneratePokemon ⟨true, .error e, iw, af, rwk, n⟩ s).trace
          = [Event.writeBalance (s.tokenBalance - GENERATION_COST),
             Event.remoteCall, Event.writeBalance s.tokenBalance] := by
        simp [handleGeneratePokemon, h, genRollback_trace]
      refine ⟨⟨_, htr⟩, fun _ => ⟨rfl, _, htr⟩, ?_⟩
      intro p hmem
      rw [htr] at hmem
      simp at hmem
    | ok p0 =>
      cases iw with
      | false =>
        have htr : (handleGeneratePokemon ⟨true, .ok p0, false, af, rwk, n⟩ s).trace
            = [Event.writeBalance (s.tokenBalance - GENERATION_COST),
               Event.remoteCall, Event.addItem p0,
               Event.writeBalance s.tokenBalance] := by
          simp [handleGeneratePokemon, h, genRollback_trace]
        refine ⟨⟨_, htr⟩, fun _ => ⟨rfl, _, htr⟩, ?_⟩
        intro p hmem
        rw [htr] at hmem
        simp at hmem
        subst hmem
        exact ⟨rfl, rfl, _, htr⟩
      | true =>
        rcases hadd : addPokemonToStore s.store.pokemons p0 with _ | sp
        · have htr : (handleGeneratePokemon ⟨true, .ok p0, true, af, rwk, n⟩ s).trace
              = [Event.writeBalance (s.tokenBalance - GENERATION_COST),
                 Event.remoteCall, Event.addItem p0,
                 Event.writeBalance s.tokenBalance] := by
            simp [handleGeneratePokemon, h, hadd, genRollback_trace]
          refine ⟨⟨_, htr⟩, fun _ => ⟨rfl, _, htr⟩, ?_⟩
          intro p hmem
          rw [htr] at hmem
          simp at hmem
          subst hmem
          exact ⟨rfl, rfl, _, htr⟩
        · by_cases hth : (checkAndUnlockAchievements af n
              (sortByNewest (p0 :: s.pokemons)) s.achievements
              s.store.achievements).threw = true
          · have htr : (handleGeneratePokemon ⟨true, .ok p0, true, af, rwk, n⟩ s).trace
                = Event.writeBalance (s.tokenBalance - GENERATION_COST)
                    :: Event.remoteCall :: Event.addItem p0
                    :: ((checkAndUnlockAchievements af n
                          (sortByNewest (p0 :: s.pokemons)) s.achievements
                          s.store.achievements).trace
                        ++ [Event.writeBalance s.tokenBalance]) := by
              simp [handleGeneratePokemon, h, hadd, hth, genRollback_trace]
            refine ⟨⟨_, htr⟩, fun _ => ⟨rfl, _, htr⟩, ?_⟩
            intro p hmem
            rw [htr] at hmem
            simp at hmem
            rcases hmem with hmem | hmem
            · subst hmem
              exact ⟨rfl, rfl, _, htr⟩
            · obtain ⟨a, ha⟩ := checkAndUnlock_trace_shape af n
                (sortByNewest (p0 :: s.pokemons)) s.achievements
                s.store.achievements _ hmem
              exact Event.noConfusion ha
          · have htr : (handleGeneratePokemon ⟨true, .ok p0, true, af, rwk, n⟩ s).trace
                = Event.writeBalance (s.tokenBalance - GENERATION_COST)
                    :: Event.remoteCall :: Event.addItem p0
                    :: (checkAndUnlockAchievements af n
                          (sortByNewest (p0 :: s.pokemons)) s.achievements
                          s.store.achievements).trace := by
              simp [handleGeneratePokemon, h, hadd, hth, genRollback_trace]
            refine ⟨⟨_, htr⟩, fun _ => ⟨rfl, _, htr⟩, ?_⟩
            intro p hmem
            rw [htr] at hmem
            simp at hmem
            rcases hmem with hmem | hmem
            · subst hmem
              exact ⟨rfl, rfl, _, htr⟩
            · obtain ⟨a, ha⟩ := checkAndUnlock_trace_shape af n
                (sortByNewest (p0 :: s.pokemons)) s.achievements
                s.store.achievements _ hmem
              exact Event.noConfusion ha

/-- Witness for C3 at concrete inputs: a fully successful generation from
the initial state issues the debit write first. -/
theorem generation_ordering_witness :
    ¬ initialAppState.tokenBalance < GENERATION_COST ∧
    (∃ t, (handleGeneratePokemon genEnvOk initialAppState).trace
        = Event.writeBalance (initialAppState.tokenBalance - GENERATION_COST) :: t) :=
  ⟨by decide, (generation_ordering genEnvOk initialAppState (by decide)).1⟩

/-! ## Claim C1 -/

/-- C1 (amended): for every generation attempt that starts with balance `B`
(in memory and persisted) and fails after the debit — the remote call fails,
the item write is refused, or the item write hits a duplicate key — and
whose compensating balance write succeeds, the balance is restored to `B`
both in memory and in the store, the failure is surfaced as an error
message, and no new item is added to the item list or the store. -/
theorem generation_rollback (env : GenEnv) (s : AppState) (B : Int)
    (hmem : s.tokenBalance = B) (hstore : s.store.tokenBalance = B)
    (hcost : GENERATION_COST ≤ B) (hdebit : env.debitWriteOk = true)
    (hroll : env.rollbackWriteOk = true)
    (hfail : (∃ e, env.remoteResult = .error e) ∨ env.itemWriteOk = false ∨
      ∀ p, env.remoteResult = .ok p → addPokemonToStore s.store.pokemons p = none) :
    (handleGeneratePokemon env s).state.tokenBalance = B ∧
    (handleGeneratePokemon env s).state.store.tokenBalance = B ∧
    (∃ msg, (handleGeneratePokemon env s).state.message = showMessage .error msg) ∧
    (handleGeneratePokemon env s).state.pokemons = s.pokemons ∧
    (handleGeneratePokemon env s).state.store.pokemons = s.store.pokemons ∧
    (handleGeneratePokemon env s).threw = false := by
  subst hmem
  have hguard : ¬ s.tokenBalance < GENERATION_COST := by omega
  rcases hrr : env.remoteResult with e | p
  · refine ⟨?_, ?_, ?_, ?_, ?_, ?_⟩ <;>
      simp [handleGeneratePokemon, genRollback, showMessage, hguard, hdebit, hrr,
        hroll]
  · rcases hfail with ⟨e, herr⟩ | hiw | hdup
    · rw [hrr] at herr
      exact Except.noConfusion herr
    · refine ⟨?_, ?_, ?_, ?_, ?_, ?_⟩ <;>
        simp [handleGeneratePokemon, genRollback, showMessage, hguard, hdebit, hrr,
          hiw, hroll]
    · by_cases hiw2 : env.itemWriteOk = true
      · refine ⟨?_, ?_, ?_, ?_, ?_, ?_⟩ <;>
          simp [handleGeneratePokemon, genRollback, showMessage, hguard, hdebit, hrr,
            hiw2, hdup p hrr, hroll]
      · have hiw3 : env.itemWriteOk = false := by
          revert hiw2
          cases env.itemWriteOk <;> simp
        refine ⟨?_, ?_, ?_, ?_, ?_, ?_⟩ <;>
          simp [handleGeneratePokemon, genRollback, showMessage, hguard, hdebit, hrr,
            hiw3, hroll]

/-- Counterexample to C1 as stated: a generation attempt from persisted
balance 100 whose remote call fails (a timeout) but whose compensating
balance write also rejects ends with persisted balance 90, not 100 — the
restoration is not persisted. -/
theorem generation_rollback_counterexample :
    initialAppState.store.tokenBalance = 100 ∧
    (∃ e, genEnvDoubleFailure.remoteResult = Except.error e) ∧
    ¬ (handleGeneratePokemon genEnvDoubleFailure initialAppState).state.store.tokenBalance
        = 100 := by
  refine ⟨by decide, ⟨_, rfl⟩, by decide⟩

/-- Witness for C1 at concrete inputs: a timed-out generation from the
initial state, with the compensating write succeeding, restores and persists
balance 100 and adds nothing to the store. -/
theorem generation_rollback_witness :
    initialAppState.tokenBalance = 100 ∧
    initialAppState.store.tokenBalance = 100 ∧
    GENERATION_COST ≤ 100 ∧
    genEnvRemoteTimeout.debitWriteOk = true ∧
    genEnvRemoteTimeout.rollbackWriteOk = true ∧
    ((handleGeneratePokemon genEnvRemoteTimeout initialAppState).state.store.tokenBalance
        = 100 ∧
      (handleGeneratePokemon genEnvRemoteTimeout initialAppState).state.store.pokemons
        = initialAppState.store.pokemons) :=
  ⟨by decide, by decide, by decide, by decide, by decide,
   (generation_rollback genEnvRemoteTimeout initialAppState 100 (by decide) (by decide)
      (by decide) (by decide) (by decide) (Or.inl ⟨_, rfl⟩)).2.1,
   (generation_rollback genEnvRemoteTimeout initialAppState 100 (by decide) (by decide)
      (by decide) (by decide) (by decide) (Or.inl ⟨_, rfl⟩)).2.2.2.2.1⟩

/-- Every resale value in the table is nonnegative. -/
theorem getResellValue_nonneg (r : PokemonRarity) : 0 ≤ getResellValue r := by
  cases r <;> decide

/-- One generation run keeps both the in-memory and the persisted balance
nonnegative. -/
theorem handleGeneratePokemon_nonneg (env : GenEnv) (s : AppState)
    (h1 : 0 ≤ s.tokenBalance) (h2 : 0 ≤ s.store.tokenBalance) :
    0 ≤ (handleGeneratePokemon env s).state.tokenBalance ∧
    0 ≤ (handleGeneratePokemon env s).state.store.tokenBalance := by
  obtain ⟨dw, rr, iw, af, rwk, n⟩ := env
  by_cases hg : s.tokenBalance < GENERATION_COST
  · simp only [handleGeneratePokemon, if_pos hg]
    exact ⟨h1, h2⟩
  · have hg10 : ¬ s.tokenBalance < (10 : Int) := hg
    cases dw with
    | false =>
      cases rwk <;>
        simp [handleGeneratePokemon, genRollback, hg10, GENERATION_COST] <;> omega
    | true =>
      cases rr with
      | error e =>
        cases rwk <;>
          simp [handleGeneratePokemon, genRollback, hg10, GENERATION_COST] <;> omega
      | ok p0 =>
        cases iw with
        | false =>
          cases rwk <;>
            simp [handleGeneratePokemon, genRollback, hg10, GENERATION_COST] <;> omega
        | true =>
          rcases hadd : addPokemonToStore s.store.pokemons p0 with _ | sp
          · cases rwk <;>
              simp [handleGeneratePokemon, genRollback, hg10, hadd,
                GENERATION_COST] <;>
              omega
          · by_cases hth : (checkAndUnlockAchievements af n
                (sortByNewest (p0 :: s.pokemons)) s.achievements
                s.store.achievements).threw = true
            · cases rwk <;>
                simp [handleGeneratePokemon, genRollback, hg10, hadd, hth,
                  GENERATION_COST] <;>
                omega
            · cases rwk <;>
                simp [handleGeneratePokemon, genRollback, hg10, hadd, hth,
                  GENERATION_COST] <;>
                omega

/-- One resale run keeps both balances nonnegative. -/
theorem handleResellConfirm_nonneg (env : SellEnv) (p : Pokemon) (s : AppState)
    (h1 : 0 ≤ s.tokenBalance) (h2 : 0 ≤ s.store.tokenBalance) :
    0 ≤ (handleResellConfirm env p s).state.tokenBalance ∧
    0 ≤ (handleResellConfirm env p s).state.store.tokenBalance := by
  obtain ⟨iw, bw, af, n⟩ := env
  have hv := getResellValue_nonneg p.rarity
  cases iw with
  | false =>
    simp only [handleResellConfirm, Bool.not_false, if_true]
    exact ⟨h1, h2⟩
  | true =>
    cases bw with
    | false =>
      simp [handleResellConfirm]
      omega
    | true =>
      by_cases hth : (checkAndUnlockAchievements af n
          (s.pokemons.map fun q =>
            if q.id = p.id then { p with status := PokemonStatus.RESOLD } else q)
          s.achievements s.store.achievements).threw = true
      · simp [handleResellConfirm, hth]
        omega
      · simp [handleResellConfirm, hth]
        omega

/-- One purchase run keeps both balances nonnegative. -/
theorem handleBuyPokemon_nonneg (env : BuyEnv) (p : Pokemon) (s : AppState)
    (h1 : 0 ≤ s.tokenBalance) (h2 : 0 ≤ s.store.tokenBalance) :
    0 ≤ (handleBuyPokemon env p s).state.tokenBalance ∧
    0 ≤ (handleBuyPokemon env p s).state.store.tokenBalance := by
  obtain ⟨iw, bw⟩ := env
  by_cases hg : s.tokenBalance < getBuyPrice p.rarity
  · simp only [handleBuyPokemon, if_pos hg]
    exact ⟨h1, h2⟩
  · cases iw with
    | false =>
      simp [handleBuyPokemon, hg]
      omega
    | true =>
      cases bw with
      | false =>
        simp [handleBuyPokemon, hg]
        omega
      | true =>
        simp [handleBuyPokemon, hg]
        omega

/-- One operation of any kind keeps both balances nonnegative. -/
theorem applyOp_nonneg (op : Op) (s : AppState)
    (h1 : 0 ≤ s.tokenBalance) (h2 : 0 ≤ s.store.tokenBalance) :
    0 ≤ (applyOp s op).tokenBalance ∧ 0 ≤ (applyOp s op).store.tokenBalance := by
  cases op with
  | generate env => exact handleGeneratePokemon_nonneg env s h1 h2
  | resell p env => exact handleResellConfirm_nonneg env p s h1 h2
  | buy p env => exact handleBuyPokemon_nonneg env p s h1 h2

/-! ## Claim C2 -/

/-- C2: for every sequence of generate, resell and buy operations — under
every schedule of remote and store-write outcomes — starting from
nonnegative in-memory and persisted balances, both balances remain
nonnegative after every operation settles: each protocol either rejects a
mutation that would drive the balance negative before persisting it, or
persists a nonnegative value. -/
theorem balance_never_negative (ops : List Op) (s : AppState)
    (h1 : 0 ≤ s.tokenBalance) (h2 : 0 ≤ s.store.tokenBalance) :
    0 ≤ (runOps s ops).tokenBalance ∧ 0 ≤ (runOps s ops).store.tokenBalance := by
  induction ops generalizing s with
  | nil => exact ⟨h1, h2⟩
  | cons op rest ih =>
    have hstep := applyOp_nonneg op s h1 h2
    simpa [runOps, List.foldl_cons] using ih (applyOp s op) hstep.1 hstep.2

/-- Witness for C2 at concrete inputs: a sample sequence of all three
protocols, including a double-failure generation, keeps both balances
nonnegative from the initial state. -/
theorem balance_never_negative_witness :
    0 ≤ initialAppState.tokenBalance ∧ 0 ≤ initialAppState.store.tokenBalance ∧
    (0 ≤ (runOps initialAppState sampleOps).tokenBalance ∧
      0 ≤ (runOps initialAppState sampleOps).store.tokenBalance) :=
  ⟨by decide, by decide,
   balance_never_negative sampleOps initialAppState (by decide) (by decide)⟩

end PokeForge
